import Mathlib

/-!
Shallow embedding of the Odel module SDK extension layer
(error taxonomy, context resolver, validators, response envelope)
and proofs of its specified properties.

Impure inputs of the original code (current time, freshly generated
request identifier) are passed as explicit parameters; JavaScript
records are modelled as association lists; thrown values are modelled
with an Except result type.
-/

namespace OdelSDK

/-- JSON-like runtime values, used for error metadata and for values
validated by the schema engine. -/
inductive JValue where
  | null : JValue
  | bool : Bool → JValue
  | num : Int → JValue
  | str : String → JValue
  | arr : List JValue → JValue
  | obj : List (String × JValue) → JValue

/-- A metadata record attached to a structured error
(the Record of string to serializable value of the source). -/
def Metadata : Type := List (String × JValue)

/-- Error codes of the taxonomy, from the ErrorCode enum of
src/odel/errors.ts. -/
inductive ErrorCode where
  | INVALID_INPUT
  | MISSING_REQUIRED_FIELD
  | INVALID_FORMAT
  | MISSING_SECRET
  | INVALID_SECRET
  | UNAUTHORIZED
  | API_ERROR
  | NETWORK_ERROR
  | TIMEOUT
  | NOT_FOUND
  | RATE_LIMIT_EXCEEDED
  | QUOTA_EXCEEDED
  | INTERNAL_ERROR
  | NOT_IMPLEMENTED
  | CONFIGURATION_ERROR
deriving DecidableEq

/-- The fixed integer value of each ErrorCode member. -/
def ErrorCode.val : ErrorCode → Nat
  | .INVALID_INPUT => 1001
  | .MISSING_REQUIRED_FIELD => 1002
  | .INVALID_FORMAT => 1003
  | .MISSING_SECRET => 2001
  | .INVALID_SECRET => 2002
  | .UNAUTHORIZED => 2003
  | .API_ERROR => 3001
  | .NETWORK_ERROR => 3002
  | .TIMEOUT => 3003
  | .NOT_FOUND => 3004
  | .RATE_LIMIT_EXCEEDED => 4001
  | .QUOTA_EXCEEDED => 4002
  | .INTERNAL_ERROR => 5001
  | .NOT_IMPLEMENTED => 5002
  | .CONFIGURATION_ERROR => 5003

/-- The ModuleError class of src/odel/errors.ts: code, message and
optional metadata, fixed at construction (the class is immutable in
the source: both fields are readonly). Constructing a value of this
structure is the constructor of the class; metadata is none when the
constructor argument was omitted. -/
structure ModuleError where
  code : ErrorCode
  message : String
  metadata : Option Metadata

/-- The JSON envelope produced by ModuleError.toJSON: success is the
literal false, error carries the message, code the numeric code, and
the metadata key is present exactly when the metadata field is some. -/
structure ErrorEnvelope where
  success : Bool
  error : String
  code : Nat
  metadata : Option Metadata

/-- ModuleError.toJSON of the source: returns
success false, error = message, code, and spreads the metadata key
only when this.metadata is truthy (a provided metadata record is an
object, hence truthy; an omitted one is undefined, hence falsy). -/
def ModuleError.toJSON (e : ModuleError) : ErrorEnvelope :=
  { success := false
    error := e.message
    code := e.code.val
    metadata := match e.metadata with
      | some m => some m
      | none => none }

/-- ModuleError.missingSecret of the source. -/
def ModuleError.missingSecret (secretName : String) : ModuleError :=
  { code := .MISSING_SECRET
    message := "Required secret \"" ++ secretName ++ "\" is not configured"
    metadata := some [("secretName", .str secretName)] }

/-- ModuleError.timeout of the source. The metadata expression of the
source is a conditional on the JavaScript truthiness of timeoutMs: an
omitted argument is undefined (falsy) and the number 0 is falsy, so
both give undefined metadata. -/
def ModuleError.timeout (operation : String) (timeoutMs : Option Int) : ModuleError :=
  { code := .TIMEOUT
    message := "Operation \"" ++ operation ++ "\" timed out"
    metadata := match timeoutMs with
      | some t => if t ≠ 0 then some [("timeoutMs", .num t)] else none
      | none => none }

/-- ModuleError.rateLimitError of the source; the metadata conditional
is again on JavaScript truthiness of retryAfter, so 0 behaves like an
omitted argument. -/
def ModuleError.rateLimitError (retryAfter : Option Int) : ModuleError :=
  { code := .RATE_LIMIT_EXCEEDED
    message := "Rate limit exceeded"
    metadata := match retryAfter with
      | some r => if r ≠ 0 then some [("retryAfter", .num r)] else none
      | none => none }

/-- A value thrown by the layer: either a plain JavaScript Error
(carrying only a message) or a ModuleError of the taxonomy. -/
inductive ThrownError where
  | plainError : String → ThrownError
  | moduleError : ModuleError → ThrownError

/-- The ModuleContext interface of src/odel/types.ts. Optional fields
are Options; the secrets record is an association list from secret
name to secret value. -/
structure ModuleContext where
  userId : String
  conversationId : Option String
  displayName : Option String
  timestamp : Nat
  requestId : String
  secrets : List (String × String)

/-- DEFAULT_MODULE_CONTEXT of src/odel/types.ts. Its timestamp field
is Date.now() evaluated once at module load, passed here as the
loadTime parameter. -/
def DEFAULT_MODULE_CONTEXT (loadTime : Nat) : ModuleContext :=
  { userId := "anonymous"
    conversationId := none
    displayName := some "Anonymous User"
    timestamp := loadTime
    requestId := "no-request-id"
    secrets := [] }

/-- The Partial of ModuleContext: every field optional, as injected by
the proxy into the request body. -/
structure ContextPatch where
  userId : Option String
  conversationId : Option String
  displayName : Option String
  timestamp : Option Nat
  requestId : Option String
  secrets : Option (List (String × String))

/-- The RequestBodyWithContext interface of src/odel/context.ts: the
JSON-RPC fields plus the optional injected context. -/
structure RequestBodyWithContext where
  id : JValue
  method : String
  params : Option (List (String × JValue))
  context : Option ContextPatch

/-- extractContext of src/odel/context.ts. The two impure reads of the
source, Date.now() and crypto.randomUUID(), are the parameters now and
freshId; loadTime is the module-load time baked into
DEFAULT_MODULE_CONTEXT. The source checks the falsiness of
body.context (an object is truthy, so this is an absence check), and
fills each field of a present partial context with the nullish
coalescing operator, except conversationId which is copied through
unconditionally. -/
def extractContext (now : Nat) (freshId : String) (loadTime : Nat)
    (body : RequestBodyWithContext) : ModuleContext :=
  match body.context with
  | none =>
    { DEFAULT_MODULE_CONTEXT loadTime with
      timestamp := now
      requestId := freshId }
  | some ctx =>
    { userId := ctx.userId.getD (DEFAULT_MODULE_CONTEXT loadTime).userId
      conversationId := ctx.conversationId
      displayName := ctx.displayName <|> (DEFAULT_MODULE_CONTEXT loadTime).displayName
      timestamp := ctx.timestamp.getD now
      requestId := ctx.requestId.getD freshId
      secrets := ctx.secrets.getD [] }

/-- The ToolContext interface of src/odel/types.ts: a ModuleContext
extended with opaque environment bindings. -/
structure ToolContext (Env : Type) extends ModuleContext where
  env : Env

/-- createToolContext of src/odel/context.ts: spreads the module
context and attaches env. -/
def createToolContext {Env : Type} (moduleContext : ModuleContext) (env : Env) :
    ToolContext Env :=
  { moduleContext with env := env }

/-- extractToolContext of src/odel/context.ts: the composition of
extractContext and createToolContext. -/
def extractToolContext {Env : Type} (now : Nat) (freshId : String) (loadTime : Nat)
    (body : RequestBodyWithContext) (env : Env) : ToolContext Env :=
  createToolContext (extractContext now freshId loadTime body) env

/-- getRequiredSecret of src/odel/context.ts. The source reads
context.secrets at secretName and throws a plain JavaScript Error (not
a ModuleError) when the value is falsy, that is when the key is absent
(undefined) or the value is the empty string. -/
def getRequiredSecret (context : ModuleContext) (secretName : String) :
    Except ThrownError String :=
  match context.secrets.lookup secretName with
  | none =>
    .error (.plainError ("Required secret \"" ++ secretName ++ "\" is not configured"))
  | some v =>
    if v = "" then
      .error (.plainError ("Required secret \"" ++ secretName ++ "\" is not configured"))
    else
      .ok v

/-- getOptionalSecret of src/odel/context.ts: the plain record read,
undefined (none) when the key is absent. -/
def getOptionalSecret (context : ModuleContext) (secretName : String) : Option String :=
  context.secrets.lookup secretName

/-- A field schema of the schema engine, covering the units used by
SuccessResponseSchema and the payload shapes it is applied to: a
boolean literal, a string, or a number. -/
inductive FieldSchema where
  | literalBool : Bool → FieldSchema
  | string : FieldSchema
  | number : FieldSchema

/-- Whether a JSON value passes a field schema. -/
def FieldSchema.accepts : FieldSchema → JValue → Bool
  | .literalBool b, .bool c => b == c
  | .string, .str _ => true
  | .number, .num _ => true
  | _, _ => false

/-- An object shape: a list of required keys with their field schemas,
as passed to the object combinator of the schema engine. -/
def ObjectShape : Type := List (String × FieldSchema)

/-- Validation of a value against an object schema: the value must be
an object and every key of the shape must be present with a value
passing its field schema (a missing key is undefined and fails the
required field; unknown keys are stripped, not rejected). -/
def objectAccepts (shape : ObjectShape) (v : JValue) : Bool :=
  match v with
  | .obj fields =>
    shape.all fun kp =>
      match fields.lookup kp.1 with
      | some fv => kp.2.accepts fv
      | none => false
  | _ => false

/-- SuccessResponseSchema of src/odel/schemas.ts: the union of an
object schema requiring success literally true plus the payload
fields, and an object schema requiring success literally false plus a
string error field. The union accepts a value when either branch
accepts it. -/
def SuccessResponseSchemaAccepts (payload : ObjectShape) (v : JValue) : Bool :=
  objectAccepts (("success", .literalBool true) :: payload) v
    || objectAccepts [("success", .literalBool false), ("error", .string)] v

/-- SimpleSuccessSchema of src/odel/schemas.ts: the degenerate case
with no payload fields. -/
def SimpleSuccessSchemaAccepts (v : JValue) : Bool :=
  SuccessResponseSchemaAccepts [] v

/-- Split a character list at every occurrence of the separator, the
semantics of the JavaScript String split method with a one-character
separator: the empty string yields one empty segment, and adjacent
separators yield empty segments. -/
def splitChar (sep : Char) : List Char → List (List Char)
  | [] => [[]]
  | c :: rest =>
    match splitChar sep rest with
    | [] => [[c]]
    | seg :: segs =>
      if c = sep then [] :: seg :: segs else (c :: seg) :: segs

/-- The JavaScript String split method with a one-character separator,
on strings. -/
def jsSplit (sep : Char) (s : String) : List String :=
  (splitChar sep s.data).map fun cs => ⟨cs⟩

/-- The JavaScript String trim method: removes whitespace from both
ends of the string. -/
def jsTrim (s : String) : String :=
  ⟨((s.data.dropWhile Char.isWhitespace).reverse.dropWhile Char.isWhitespace).reverse⟩

/-- One element of the array branch of the emailList validator: the
value must be a string passing the email unit of the engine. The email
grammar itself belongs to the external schema engine and is the
parameter isEmail. -/
def parseEmailElem (isEmail : String → Bool) : JValue → Option String
  | .str e => if isEmail e then some e else none
  | _ => none

/-- The array-of-email schema of the engine: every element must be a
string passing the email unit; the parse fails when any element
fails. -/
def parseEmailArray (isEmail : String → Bool) : List JValue → Option (List String)
  | [] => some []
  | v :: vs =>
    match parseEmailElem isEmail v, parseEmailArray isEmail vs with
    | some e, some es => some (e :: es)
    | _, _ => none

/-- validators.emailList of src/odel/validators.ts: the union (or) of
an array-of-email schema and a string schema that is transformed by
splitting on commas and trimming each segment, then piped into an
array-of-email schema; any other input shape fails both branches. -/
def emailList (isEmail : String → Bool) : JValue → Option (List String)
  | .arr xs => parseEmailArray isEmail xs
  | .str s =>
    let segs := (jsSplit ',' s).map jsTrim
    if segs.all isEmail then some segs else none
  | _ => none

/-- Modelled from the spec: a concrete stand-in for the email grammar
of the external schema-validation engine (the engine is a third-party
dependency whose code is not in this repository). It accepts a string
with exactly one at sign, a nonempty local part, and a domain whose
dot-separated labels are all nonempty and which contains at least one
dot. Used only to instantiate the abstract email predicate on the
concrete examples of the spec. -/
def isEmailModel (s : String) : Bool :=
  match jsSplit '@' s with
  | [localPart, domain] =>
    localPart != "" &&
      (let labels := jsSplit '.' domain
       decide (labels.length ≥ 2) && labels.all (fun l => l != ""))
  | _ => false

/-- A partial context with every field omitted. -/
def emptyPatch : ContextPatch :=
  { userId := none
    conversationId := none
    displayName := none
    timestamp := none
    requestId := none
    secrets := none }

/-- A request body with no context sub-object at all. -/
def bodyNoContext : RequestBodyWithContext :=
  { id := .num 1
    method := "tools/call"
    params := none
    context := none }

/-- A request body whose context sub-object is present but supplies no
field. -/
def bodyEmptyContext : RequestBodyWithContext :=
  { id := .num 1
    method := "tools/call"
    params := none
    context := some emptyPatch }

/-- A request body whose context supplies only a userId. -/
def bodyUserOnly : RequestBodyWithContext :=
  { id := .num 1
    method := "tools/call"
    params := none
    context := some { emptyPatch with userId := some "u" } }

/-- A request body whose context supplies a falsy userId (the empty
string) and a falsy timestamp (zero). -/
def bodyFalsyFields : RequestBodyWithContext :=
  { id := .num 1
    method := "tools/call"
    params := none
    context := some { emptyPatch with userId := some "", timestamp := some 0 } }

/-- A context whose secrets record is empty. -/
def ctxNoSecrets : ModuleContext :=
  { userId := "anonymous"
    conversationId := none
    displayName := none
    timestamp := 0
    requestId := "r0"
    secrets := [] }

/-- A context whose secrets record maps EMPTY_KEY to the empty string
and API_KEY to a nonempty value. -/
def ctxWithSecrets : ModuleContext :=
  { userId := "user_123"
    conversationId := none
    displayName := none
    timestamp := 0
    requestId := "r1"
    secrets := [("EMPTY_KEY", ""), ("API_KEY", "sk-test-key")] }

/-- C1: at a context with no configured secrets, getRequiredSecret
throws a plain JavaScript Error carrying the exact message of the
missingSecret factory, but the thrown value is not the ModuleError the
factory produces (it carries no MISSING_SECRET code), contradicting
the claim and the doc comment of the function itself. -/
theorem getRequiredSecret_throws_plain_error_not_module_error :
    getRequiredSecret ctxNoSecrets "API_KEY"
      = .error (.plainError "Required secret \"API_KEY\" is not configured")
    ∧ (ModuleError.missingSecret "API_KEY").message
      = "Required secret \"API_KEY\" is not configured"
    ∧ ThrownError.plainError "Required secret \"API_KEY\" is not configured"
      ≠ ThrownError.moduleError (ModuleError.missingSecret "API_KEY") := by
  refine ⟨rfl, rfl, ?_⟩
  intro h
  exact ThrownError.noConfusion h

/-- C3 counterexample: with the argument 0 explicitly given, both the
timeout factory and the rateLimitError factory produce an error with
absent metadata, not metadata containing the zero, because the source
guards the metadata on JavaScript truthiness and 0 is falsy. -/
theorem timeout_zero_metadata_absent_cex :
    (ModuleError.timeout "op" (some 0)).metadata = none
    ∧ (ModuleError.timeout "op" (some 0)).metadata ≠ some [("timeoutMs", .num 0)]
    ∧ (ModuleError.rateLimitError (some 0)).metadata = none
    ∧ (ModuleError.rateLimitError (some 0)).metadata ≠ some [("retryAfter", .num 0)] := by
  refine ⟨rfl, ?_, rfl, ?_⟩ <;> · intro h; simp [ModuleError.timeout, ModuleError.rateLimitError] at h

/-- C3 amended: the timeout factory produces code TIMEOUT and the
fixed message, with metadata containing timeoutMs exactly when the
argument is given and nonzero (JavaScript-truthy), absent when omitted
or zero; likewise rateLimitError with code RATE_LIMIT_EXCEEDED, the
fixed message, and retryAfter metadata exactly when given and
nonzero. -/
theorem timeout_rateLimit_factories_spec (op : String) (t r : Int) :
    (ModuleError.timeout op (some t)).code = .TIMEOUT
    ∧ (ModuleError.timeout op (some t)).message = "Operation \"" ++ op ++ "\" timed out"
    ∧ (t ≠ 0 → (ModuleError.timeout op (some t)).metadata = some [("timeoutMs", .num t)])
    ∧ (ModuleError.timeout op none).metadata = none
    ∧ (ModuleError.timeout op (some 0)).metadata = none
    ∧ (ModuleError.rateLimitError (some r)).code = .RATE_LIMIT_EXCEEDED
    ∧ (ModuleError.rateLimitError (some r)).message = "Rate limit exceeded"
    ∧ (r ≠ 0 → (ModuleError.rateLimitError (some r)).metadata = some [("retryAfter", .num r)])
    ∧ (ModuleError.rateLimitError none).metadata = none
    ∧ (ModuleError.rateLimitError (some 0)).metadata = none := by
  refine ⟨rfl, rfl, ?_, rfl, rfl, rfl, rfl, ?_, rfl, rfl⟩ <;>
    · intro h; simp [ModuleError.timeout, ModuleError.rateLimitError, h]

/-- C3 witness: the amended theorem applied at the inputs of the test
suite, operation API call with 30000 milliseconds and retryAfter 60. -/
theorem timeout_rateLimit_factories_spec_witness :
    ((30000 : Int) ≠ 0
      ∧ (ModuleError.timeout "API call" (some 30000)).metadata
          = some [("timeoutMs", .num 30000)])
    ∧ ((60 : Int) ≠ 0
      ∧ (ModuleError.rateLimitError (some 60)).metadata
          = some [("retryAfter", .num 60)]) := by
  have h := timeout_rateLimit_factories_spec "API call" 30000 60
  exact ⟨⟨by decide, h.2.2.1 (by decide)⟩,
         ⟨by decide, h.2.2.2.2.2.2.2.1 (by decide)⟩⟩

/-- C5: serialization of a ModuleError produces success false, error
equal to the message, code equal to the numeric code, and the metadata
key is present exactly when metadata was provided at construction, in
which case it is equal to the provided record; when absent the key is
omitted. -/
theorem toJSON_envelope_spec (c : ErrorCode) (m : String) (md : Option Metadata) :
    (ModuleError.mk c m md).toJSON
      = { success := false, error := m, code := c.val, metadata := md }
    ∧ ((ModuleError.mk c m md).toJSON.metadata = none ↔ md = none)
    ∧ (∀ r : Metadata, (ModuleError.mk c m md).toJSON.metadata = some r ↔ md = some r) := by
  cases md <;> simp [ModuleError.toJSON]

/-- C5 witness: the serialization theorem applied to the two errors of
the test suite, one with metadata and one without. -/
theorem toJSON_envelope_spec_witness :
    (ModuleError.mk .API_ERROR "External API failed"
        (some [("statusCode", .num 500)])).toJSON
      = { success := false, error := "External API failed", code := 3001,
          metadata := some [("statusCode", .num 500)] }
    ∧ (ModuleError.mk .INTERNAL_ERROR "Something went wrong" none).toJSON
      = { success := false, error := "Something went wrong", code := 5001,
          metadata := none } := by
  exact ⟨(toJSON_envelope_spec .API_ERROR "External API failed"
            (some [("statusCode", .num 500)])).1,
         (toJSON_envelope_spec .INTERNAL_ERROR "Something went wrong" none).1⟩

/-- C2 counterexample: for a request body whose context is present but
supplies neither conversationId nor displayName, the extracted context
leaves conversationId absent but fills displayName with the default
sentinel Anonymous User, so displayName is not truly absent as the
claim states. -/
theorem extractContext_displayName_not_absent_cex :
    (extractContext 5 "fresh-id" 0 bodyEmptyContext).conversationId = none
    ∧ (extractContext 5 "fresh-id" 0 bodyEmptyContext).displayName
        = some "Anonymous User"
    ∧ (extractContext 5 "fresh-id" 0 bodyEmptyContext).displayName ≠ none := by
  refine ⟨rfl, rfl, ?_⟩
  intro h
  simp [extractContext, bodyEmptyContext, emptyPatch, DEFAULT_MODULE_CONTEXT] at h

/-- C2 amended: for every request body whose context sub-object is
present but supplies neither conversationId nor displayName,
extractContext leaves conversationId truly absent (none, not an empty
string) and fills displayName with the default sentinel Anonymous
User. -/
theorem extractContext_conversationId_absent_spec
    (now loadTime : Nat) (freshId : String) (body : RequestBodyWithContext)
    (ctx : ContextPatch) (hc : body.context = some ctx)
    (h1 : ctx.conversationId = none) (h2 : ctx.displayName = none) :
    (extractContext now freshId loadTime body).conversationId = none
    ∧ (extractContext now freshId loadTime body).displayName = some "Anonymous User" := by
  simp [extractContext, hc, h1, h2, DEFAULT_MODULE_CONTEXT, Option.orElse]

/-- C2 witness: the amended theorem applied to the request body whose
context is present and entirely empty. -/
theorem extractContext_conversationId_absent_spec_witness :
    (extractContext 5 "fresh-id" 7 bodyEmptyContext).conversationId = none
    ∧ (extractContext 5 "fresh-id" 7 bodyEmptyContext).displayName
        = some "Anonymous User" :=
  extractContext_conversationId_absent_spec 5 7 "fresh-id" bodyEmptyContext
    emptyPatch rfl rfl rfl

/-- C6: with no context sub-object at all, extractContext returns the
default context with the fresh timestamp and the freshly generated
request identifier of this call; with a partial context supplying only
a userId, that userId is kept while every other field independently
defaults: sentinel displayName, absent conversationId, empty secrets,
fresh timestamp and fresh request identifier. -/
theorem extractContext_defaults_spec
    (now loadTime : Nat) (freshId : String) (body : RequestBodyWithContext) :
    (body.context = none →
      extractContext now freshId loadTime body
        = { userId := "anonymous", conversationId := none,
            displayName := some "Anonymous User", timestamp := now,
            requestId := freshId, secrets := [] })
    ∧ (∀ u : String,
        body.context = some { emptyPatch with userId := some u } →
          extractContext now freshId loadTime body
            = { userId := u, conversationId := none,
                displayName := some "Anonymous User", timestamp := now,
                requestId := freshId, secrets := [] }) := by
  constructor
  · intro h
    simp [extractContext, h, DEFAULT_MODULE_CONTEXT]
  · intro u h
    simp [extractContext, h, emptyPatch, DEFAULT_MODULE_CONTEXT, Option.orElse]

/-- C6 witness: the defaulting theorem applied to the body with no
context and to the body supplying only the userId u. -/
theorem extractContext_defaults_spec_witness :
    extractContext 42 "fresh-id" 7 bodyNoContext
      = { userId := "anonymous", conversationId := none,
          displayName := some "Anonymous User", timestamp := 42,
          requestId := "fresh-id", secrets := [] }
    ∧ extractContext 42 "fresh-id" 7 bodyUserOnly
      = { userId := "u", conversationId := none,
          displayName := some "Anonymous User", timestamp := 42,
          requestId := "fresh-id", secrets := [] } :=
  ⟨(extractContext_defaults_spec 42 7 "fresh-id" bodyNoContext).1 rfl,
   (extractContext_defaults_spec 42 7 "fresh-id" bodyUserOnly).2 "u" rfl⟩

/-- C9: per-field defaulting in extractContext is nullish-only, not
falsy: any supplied field value is preserved verbatim, in particular a
supplied empty-string userId stays the empty string and a supplied
zero timestamp stays zero, neither being replaced by its default. -/
theorem extractContext_nullish_not_falsy
    (now loadTime : Nat) (freshId : String) (body : RequestBodyWithContext)
    (ctx : ContextPatch) (hc : body.context = some ctx) :
    (∀ u, ctx.userId = some u → (extractContext now freshId loadTime body).userId = u)
    ∧ (∀ t, ctx.timestamp = some t →
        (extractContext now freshId loadTime body).timestamp = t)
    ∧ (∀ d, ctx.displayName = some d →
        (extractContext now freshId loadTime body).displayName = some d)
    ∧ (∀ i, ctx.requestId = some i →
        (extractContext now freshId loadTime body).requestId = i) := by
  refine ⟨?_, ?_, ?_, ?_⟩ <;>
    · intro x hx
      simp [extractContext, hc, hx, Option.orElse]

/-- C9 witness: the nullish-only theorem applied at the body supplying
the falsy values, empty-string userId and zero timestamp: both are
preserved, so the userId is not the anonymous sentinel and the
timestamp is not the fresh time 999. -/
theorem extractContext_nullish_not_falsy_witness :
    (extractContext 999 "fresh-id" 7 bodyFalsyFields).userId = ""
    ∧ (extractContext 999 "fresh-id" 7 bodyFalsyFields).timestamp = 0 :=
  ⟨(extractContext_nullish_not_falsy 999 7 "fresh-id" bodyFalsyFields
      { emptyPatch with userId := some "", timestamp := some 0 } rfl).1 "" rfl,
   (extractContext_nullish_not_falsy 999 7 "fresh-id" bodyFalsyFields
      { emptyPatch with userId := some "", timestamp := some 0 } rfl).2.1 0 rfl⟩

/-- C4: the empty-string asymmetry of the two secret lookups: for an
absent key, getRequiredSecret throws and getOptionalSecret returns the
absent marker; for a key mapped to the empty string, getRequiredSecret
still throws while getOptionalSecret returns the empty string
unchanged; for a key mapped to a nonempty value, getRequiredSecret
returns it. -/
theorem secret_lookup_empty_string_asymmetry
    (context : ModuleContext) (name : String) :
    (context.secrets.lookup name = none →
      getRequiredSecret context name
        = .error (.plainError ("Required secret \"" ++ name ++ "\" is not configured"))
      ∧ getOptionalSecret context name = none)
    ∧ (context.secrets.lookup name = some "" →
      getRequiredSecret context name
        = .error (.plainError ("Required secret \"" ++ name ++ "\" is not configured"))
      ∧ getOptionalSecret context name = some "")
    ∧ (∀ v, context.secrets.lookup name = some v → v ≠ "" →
      getRequiredSecret context name = .ok v
      ∧ getOptionalSecret context name = some v) := by
  refine ⟨?_, ?_, ?_⟩
  · intro h
    exact ⟨by simp [getRequiredSecret, h], by simp [getOptionalSecret, h]⟩
  · intro h
    exact ⟨by simp [getRequiredSecret, h], by simp [getOptionalSecret, h]⟩
  · intro v h hv
    exact ⟨by simp [getRequiredSecret, h, hv], by simp [getOptionalSecret, h]⟩

/-- C4 witness: the asymmetry theorem applied at a context with no
secrets (absent key) and a context mapping EMPTY_KEY to the empty
string and API_KEY to a nonempty value. -/
theorem secret_lookup_empty_string_asymmetry_witness :
    (getRequiredSecret ctxNoSecrets "MISSING_KEY"
        = .error (.plainError "Required secret \"MISSING_KEY\" is not configured")
      ∧ getOptionalSecret ctxNoSecrets "MISSING_KEY" = none)
    ∧ (getRequiredSecret ctxWithSecrets "EMPTY_KEY"
        = .error (.plainError "Required secret \"EMPTY_KEY\" is not configured")
      ∧ getOptionalSecret ctxWithSecrets "EMPTY_KEY" = some "")
    ∧ (getRequiredSecret ctxWithSecrets "API_KEY" = .ok "sk-test-key"
      ∧ getOptionalSecret ctxWithSecrets "API_KEY" = some "sk-test-key") :=
  ⟨(secret_lookup_empty_string_asymmetry ctxNoSecrets "MISSING_KEY").1 rfl,
   (secret_lookup_empty_string_asymmetry ctxWithSecrets "EMPTY_KEY").2.1 rfl,
   (secret_lookup_empty_string_asymmetry ctxWithSecrets "API_KEY").2.2
     "sk-test-key" rfl (by decide)⟩

/-- C10: getRequiredSecret throws exactly when the stored value for
the name is absent or the empty string, and whenever it returns
normally the returned value is exactly the stored value of the secrets
record and is nonempty. The embedding is a pure function from the
context, so the context and its secrets record are unchanged in both
cases. -/
theorem getRequiredSecret_raise_iff_spec
    (context : ModuleContext) (name : String) :
    ((∃ err, getRequiredSecret context name = .error err)
      ↔ (context.secrets.lookup name = none ∨ context.secrets.lookup name = some ""))
    ∧ (∀ v, getRequiredSecret context name = .ok v
      ↔ (context.secrets.lookup name = some v ∧ v ≠ "")) := by
  constructor
  · cases h : context.secrets.lookup name with
    | none => simp [getRequiredSecret, h]
    | some v =>
      by_cases hv : v = "" <;> simp [getRequiredSecret, h, hv]
  · intro v
    cases h : context.secrets.lookup name with
    | none => simp [getRequiredSecret, h]
    | some w =>
      by_cases hw : w = ""
      · simp [getRequiredSecret, h, hw]
        exact fun h' => h'.symm
      · simp [getRequiredSecret, h, hw]
        exact fun h' => h' ▸ hw

/-- C10 witness: the characterization applied at a concrete context:
the lookup of API_KEY returns exactly the stored nonempty value, and
the lookup of EMPTY_KEY throws. -/
theorem getRequiredSecret_raise_iff_spec_witness :
    getRequiredSecret ctxWithSecrets "API_KEY" = .ok "sk-test-key"
    ∧ (∃ err, getRequiredSecret ctxWithSecrets "EMPTY_KEY" = .error err) :=
  ⟨((getRequiredSecret_raise_iff_spec ctxWithSecrets "API_KEY").2 "sk-test-key").mpr
      ⟨rfl, by decide⟩,
   (getRequiredSecret_raise_iff_spec ctxWithSecrets "EMPTY_KEY").1.mpr (Or.inr rfl)⟩

/-- C7: validation against SuccessResponseSchema picks the union
branch matching the literal success value and applies only that
branch of field requirements: with success literally true, acceptance
equals the payload field requirements alone; with success literally
false, acceptance equals the requirement of a string error field
alone. In particular, at the payload shape with one numeric field x,
the schema accepts success true with x and success false with a string
error, and rejects success true without x and success false without
error. -/
theorem successResponseSchema_branch_selection
    (payload : ObjectShape) (fields : List (String × JValue)) :
    (fields.lookup "success" = some (.bool true) →
      SuccessResponseSchemaAccepts payload (.obj fields)
        = payload.all fun kp =>
            match fields.lookup kp.1 with
            | some fv => kp.2.accepts fv
            | none => false)
    ∧ (fields.lookup "success" = some (.bool false) →
      SuccessResponseSchemaAccepts payload (.obj fields)
        = match fields.lookup "error" with
          | some fv => FieldSchema.string.accepts fv
          | none => false)
    ∧ SuccessResponseSchemaAccepts [("x", .number)]
        (.obj [("success", .bool true), ("x", .num 1)]) = true
    ∧ SuccessResponseSchemaAccepts [("x", .number)]
        (.obj [("success", .bool false), ("error", .str "e")]) = true
    ∧ SuccessResponseSchemaAccepts [("x", .number)]
        (.obj [("success", .bool true)]) = false
    ∧ SuccessResponseSchemaAccepts [("x", .number)]
        (.obj [("success", .bool false)]) = false := by
  refine ⟨?_, ?_, rfl, rfl, rfl, rfl⟩ <;>
    · intro h
      simp [SuccessResponseSchemaAccepts, objectAccepts, h, FieldSchema.accepts]

/-- C7 witness: the branch-selection theorem applied at the payload
shape with one numeric field x and the value with success true and x
equal to one: acceptance reduces to the payload requirement, which
holds. -/
theorem successResponseSchema_branch_selection_witness :
    (SuccessResponseSchemaAccepts [("x", .number)]
      (.obj [("success", .bool true), ("x", .num 1)])
      = ([("x", FieldSchema.number)] : ObjectShape).all (fun kp =>
          match ([("success", JValue.bool true), ("x", JValue.num 1)] :
              List (String × JValue)).lookup kp.1 with
          | some fv => kp.2.accepts fv
          | none => false))
    ∧ (SuccessResponseSchemaAccepts [("x", .number)]
      (.obj [("success", .bool false), ("error", .str "e")])
      = match ([("success", JValue.bool false), ("error", JValue.str "e")] :
            List (String × JValue)).lookup "error" with
        | some fv => FieldSchema.string.accepts fv
        | none => false) :=
  ⟨(successResponseSchema_branch_selection [("x", .number)]
      [("success", .bool true), ("x", .num 1)]).1 rfl,
   (successResponseSchema_branch_selection [("x", .number)]
      [("success", .bool false), ("error", .str "e")]).2.1 rfl⟩

/-- Helper: the array-of-email schema accepts a list of strings that
all pass the email unit, returning the same list. -/
theorem parseEmailArray_all_true (isEmail : String → Bool) (xs : List String)
    (h : xs.all isEmail = true) :
    parseEmailArray isEmail (xs.map .str) = some xs := by
  induction xs with
  | nil => rfl
  | cons x rest ih =>
    simp only [List.all_cons, Bool.and_eq_true] at h
    simp [parseEmailArray, parseEmailElem, h.1, ih h.2]

/-- Helper: the array-of-email schema rejects a list of strings one of
which fails the email unit. -/
theorem parseEmailArray_mem_false (isEmail : String → Bool) (xs : List String)
    (e : String) (he : e ∈ xs) (hf : isEmail e = false) :
    parseEmailArray isEmail (xs.map .str) = none := by
  induction xs with
  | nil => cases he
  | cons x rest ih =>
    cases he with
    | head =>
      simp [parseEmailArray, parseEmailElem, hf]
    | tail _ hm =>
      simp only [List.map_cons, parseEmailArray, parseEmailElem, ih hm]
      cases hx : isEmail x <;> simp

/-- C8: the emailList validator accepts an array of strings all
passing the email unit, yielding the same array, and accepts a single
string by splitting it on commas and trimming surrounding whitespace
of each segment before validating, yielding the list of trimmed
segments; it rejects whenever any segment or element fails the email
unit. The email grammar itself is the external schema engine and is
abstract here. -/
theorem emailList_spec (isEmail : String → Bool) (s : String) (xs : List String) :
    (((jsSplit ',' s).map jsTrim).all isEmail = true →
      emailList isEmail (.str s) = some ((jsSplit ',' s).map jsTrim))
    ∧ ((∃ seg ∈ (jsSplit ',' s).map jsTrim, isEmail seg = false) →
      emailList isEmail (.str s) = none)
    ∧ (xs.all isEmail = true →
      emailList isEmail (.arr (xs.map .str)) = some xs)
    ∧ ((∃ e ∈ xs, isEmail e = false) →
      emailList isEmail (.arr (xs.map .str)) = none) := by
  refine ⟨?_, ?_, ?_, ?_⟩
  · intro h
    simp [emailList, h]
  · rintro ⟨seg, hm, hf⟩
    have hall : ((jsSplit ',' s).map jsTrim).all isEmail = false := by
      cases hall : ((jsSplit ',' s).map jsTrim).all isEmail with
      | false => rfl
      | true =>
        have := List.all_eq_true.mp hall seg hm
        rw [hf] at this
        cases this
    simp [emailList, hall]
  · intro h
    simpa [emailList] using parseEmailArray_all_true isEmail xs h
  · rintro ⟨e, he, hf⟩
    simpa [emailList] using parseEmailArray_mem_false isEmail xs e he hf

/-- C8 witness: the emailList theorem applied with the concrete email
model at the two strings of the spec: the comma-separated pair of
addresses normalizes to the two-element list with whitespace trimmed,
and the string with one invalid segment is rejected. -/
theorem emailList_spec_witness :
    emailList isEmailModel (.str "a@example.com, b@example.com")
      = some ["a@example.com", "b@example.com"]
    ∧ emailList isEmailModel (.str "valid@example.com, not-an-email") = none :=
  ⟨((emailList_spec isEmailModel "a@example.com, b@example.com" []).1
      (by decide)).trans (by decide),
   (emailList_spec isEmailModel "valid@example.com, not-an-email" []).2.1
      ⟨"not-an-email", by decide, by decide⟩⟩

end OdelSDK
